import Mathlib

/-!
Verification of the Secure_Data_Transfer_CLOUD_ECDH_DNN repository:
a shallow embedding of the anomaly-scoring inference service
(src/ids_service/inference.py), the attack-simulation driver
(src/attack_simulator.py) and the security test harness
(src/run_full_security_tests.py), together with theorems settling the
specification claims about them.

Scores and feature values are modelled as rationals (ℚ): the Python code
computes with floats, but every claim under scrutiny concerns exact
comparisons against the representable-or-coinciding constants 0.5, 0.4,
0.1 and 50 * 0.3 = 15.0, where float and exact arithmetic agree.
-/

namespace SecureTransfer

/-! ### Inference service — src/ids_service/inference.py -/

/-- One value of the feature dictionary handed to the inference functions.
`num q` is a finite numeric value; `nonNumeric` stands for any value
(NaN, infinity, string, None) on which sklearn raises during scaling. -/
inductive PyVal where
  | num (q : ℚ)
  | nonNumeric
deriving DecidableEq, Repr

/-- A feature dictionary, in insertion order, as `pd.DataFrame([features])`
sees it: one column per key. -/
abbrev Features := List (String × PyVal)

/-- Numeric reading of a value (only meaningful when `isNum`). -/
def PyVal.toRat : PyVal → ℚ
  | .num q => q
  | .nonNumeric => 0

/-- Whether the value is a finite numeric value. -/
def PyVal.isNum : PyVal → Bool
  | .num _ => true
  | .nonNumeric => false

/-- Models `StandardScaler().fit_transform(feature_df)` as called in
inference.py, where `feature_df = pd.DataFrame([features])` is a single-row
frame. sklearn raises on an empty feature set and on non-numeric or
non-finite entries; otherwise, per column, the mean over the single row is
the value itself and the standard deviation is 0, which sklearn replaces by
a scale of 1, so every entry is mapped to (x - x) / 1. -/
def fit_transform_single_row (features : Features) : Except String (List ℚ) :=
  if features.isEmpty then .error "zero features"
  else if features.all (fun kv => kv.2.isNum) then
    .ok (features.map (fun kv =>
      let x := kv.2.toRat
      let mean := x
      let scale : ℚ := 1
      (x - mean) / scale))
  else .error "non-numeric input"

/-- A trained model object as inference.py uses it: `hasattr(model,
'predict_proba')` decides which prediction function is consulted; each
function takes the 2-D array of normalized rows and may itself fail
(malformed or missing model), which the caller's handler catches. -/
structure Model where
  has_predict_proba : Bool
  predict_proba : List (List ℚ) → Except String (List (List ℚ))
  predict : List (List ℚ) → Except String (List ℚ)

/-- The score-extraction step of inference.py applied to the normalized
single row: `probabilities[0][1] if len(probabilities[0]) > 1 else
probabilities[0][0]` on the predict_proba branch, `model.predict(...)[0]`
otherwise; an out-of-range index is an IndexError, hence `.error`. -/
def model_score (model : Model) (normalized : List ℚ) : Except String ℚ :=
  if model.has_predict_proba then
    match model.predict_proba [normalized] with
    | .error e => .error e
    | .ok probabilities =>
      match probabilities[0]? with
      | none => .error "index out of range"
      | some p0 =>
        if p0.length > 1 then
          match p0[1]? with
          | some v => .ok v
          | none => .error "index out of range"
        else
          match p0[0]? with
          | some v => .ok v
          | none => .error "index out of range"
  else
    match model.predict [normalized] with
    | .error e => .error e
    | .ok preds =>
      match preds[0]? with
      | some v => .ok v
      | none => .error "index out of range"

/-- The body of the `try` block shared verbatim by `predict_handshake` and
`predict_file` up to the verdict threshold: DataFrame construction and
scaling, then score extraction; `.error` marks any raised exception. -/
def anomaly_score_of (features : Features) (model : Model) : Except String ℚ :=
  match fit_transform_single_row features with
  | .error e => .error e
  | .ok normalized => model_score model normalized

/-- `predict_handshake(features, model)` from inference.py: threshold 0.5;
any exception inside the `try` block is caught and `(0.1, "normal")` is
returned. -/
def predict_handshake (features : Features) (model : Model) : ℚ × String :=
  match anomaly_score_of features model with
  | .ok anomaly_score =>
    (anomaly_score, if anomaly_score > 1/2 then "suspicious" else "normal")
  | .error _ => (1/10, "normal")

/-- `predict_file(features, model)` from inference.py: identical to
`predict_handshake` except for the threshold 0.4. -/
def predict_file (features : Features) (model : Model) : ℚ × String :=
  match anomaly_score_of features model with
  | .ok anomaly_score =>
    (anomaly_score, if anomaly_score > 2/5 then "suspicious" else "normal")
  | .error _ => (1/10, "normal")

/-- Modelled from the spec: the model store (§6, not part of src/) provides
trained model objects "exposing a probability-or-label prediction function
over a feature vector" — predict_proba returns one list of class
probabilities (values in [0,1], at least one class) per input row, and
predict returns one 0/1 label per input row, without failing. -/
def ModelWF (m : Model) : Prop :=
  (m.has_predict_proba = true →
    ∀ rows, ∃ ps, m.predict_proba rows = .ok ps ∧ ps.length = rows.length ∧
      ∀ p ∈ ps, p ≠ [] ∧ ∀ x ∈ p, 0 ≤ x ∧ x ≤ 1) ∧
  (m.has_predict_proba = false →
    ∀ rows, ∃ ys, m.predict rows = .ok ys ∧ ys.length = rows.length ∧
      ∀ y ∈ ys, y = 0 ∨ y = 1)

/-- A concrete well-formed model used to instantiate theorems: it exposes
predict_proba and returns the class distribution [1/4, 3/4] for every row. -/
def example_model : Model where
  has_predict_proba := true
  predict_proba := fun rows => .ok (rows.map (fun _ => [1/4, 3/4]))
  predict := fun rows => .ok (rows.map (fun _ => 0))

/-! ### Attack driver — src/attack_simulator.py -/

/-- The fixed plaintext used by tampered_upload_demo, as bytes. -/
def legitimate_data : List Nat :=
  "This is supposed to be encrypted data with AES-GCM".toList.map Char.toNat

/-- The tampering loop of tampered_upload_demo: for i in range(10, 20),
tampered_data[i] = tampered_data[i] ^ 0xFF. -/
def tamper_bytes (data : List Nat) : List Nat :=
  (List.range' 10 10).foldl (fun d i => d.set i ((d.getD i 0) ^^^ 0xFF)) data

/-- The payload uploaded by the tamper scenario. -/
def tampered_data : List Nat := tamper_bytes legitimate_data

/-- Result of one upload request as the driver observes it: either a raised
exception (connection failure, JSON parse failure, ...) or a completed
response with its HTTP status code. -/
inductive UploadOutcome where
  | transport_error
  | response (status : Nat)

/-- Outcome of tampered_upload_demo as a function of its environment: an
authentication failure or any exception returns False; otherwise the
scenario passes exactly when the status code is in [400, 403, 500]. -/
def tampered_upload_demo (auth_ok : Bool) (outcome : UploadOutcome) : Bool :=
  if auth_ok = false then false
  else
    match outcome with
    | .transport_error => false
    | .response status => [400, 403, 500].contains status

/-- Acceptance statuses (2xx) of the transport interface of §6 of the spec. -/
def is_accept_status (status : Nat) : Bool :=
  decide (200 ≤ status ∧ status < 300)

/-- The fake public key injected by mitm_wrong_key, as bytes; the driver
submits its base64 encoding as the publicKey field of handshake/init. -/
def fake_key_bytes : List Nat :=
  "FAKE_PUBLIC_KEY_INJECTED_BY_ATTACKER".toList.map Char.toNat

/-- Environment observed by mitm_wrong_key: whether authentication worked,
whether some request raised, the init response and, when init returned 200
with a handshake id, the validate response. -/
structure ForgedKeyEnv where
  auth_ok : Bool
  request_error : Bool
  init_status : Nat
  handshake_id : Option String
  validate_status : Nat
  verified : Bool

/-- mitm_wrong_key from attack_simulator.py: a non-200 init status passes
immediately; a 200 init without a handshakeId fails; otherwise the scenario
passes iff `not verified or validate_response.status_code != 200`. -/
def mitm_wrong_key (e : ForgedKeyEnv) : Bool :=
  if e.auth_ok = false then false
  else if e.request_error then false
  else if e.init_status = 200 then
    match e.handshake_id with
    | some _ => !e.verified || decide (e.validate_status ≠ 200)
    | none => false
  else true

/-- The initial upload payload of replay_attack_demo, as bytes. -/
def test_content : List Nat :=
  "Initial legitimate file upload".toList.map Char.toNat

/-- The three replayed uploads are byte-identical copies of the initial
payload: the loop reuses the same test_content buffer. -/
def replay_uploads : List (List Nat) := List.replicate 3 test_content

/-- Python substring test `needle in hay` on character lists. -/
def contains_chars (hay needle : List Char) : Bool :=
  (List.range (hay.length + 1)).any (fun i => needle.isPrefixOf (hay.drop i))

/-- `error_msg.lower()` as a character list. -/
def lower_chars (s : String) : List Char := s.toList.map Char.toLower

/-- The replay-detection check of replay_attack_demo:
`'replay' in error_msg.lower() or 'nonce' in error_msg.lower()`. -/
def signals_replay (msg : String) : Bool :=
  contains_chars (lower_chars msg) ("replay".toList) ||
  contains_chars (lower_chars msg) ("nonce".toList)

/-- Result of one upload request in the replay scenario: a raised exception,
or a completed response whose body carries the given error message (an
absent error field reads as the empty string via .get). -/
inductive ReplayOutcome where
  | transport_error
  | response (error_msg : String)

/-- The replay loop (3 iterations in the source): an exception anywhere
propagates to the handler and fails the scenario; a response whose error
message signals replay or nonce reuse returns a pass immediately; when the
loop completes without detection the scenario still passes (the source
prints "may have rate limiting" and returns True). -/
def replay_loop : List ReplayOutcome → Bool
  | [] => true
  | .transport_error :: _ => false
  | .response msg :: rest => if signals_replay msg then true else replay_loop rest

/-- replay_attack_demo from attack_simulator.py as a function of its
environment: the initial upload only fails the scenario when it raises; the
three replays are then processed by the loop. -/
def replay_attack_demo (auth_ok : Bool) (initial : ReplayOutcome)
    (replays : List ReplayOutcome) : Bool :=
  if auth_ok = false then false
  else
    match initial with
    | .transport_error => false
    | .response _ => replay_loop replays

/-- Observable result of one brute-force handshake attempt: an exception in
the attempt body, an init response other than 200, a 200 init response
without a handshakeId, or a completed validate round with its status code
and the anomaly score read from idsResult (0 when absent). -/
inductive HandshakeAttempt where
  | transport_error
  | init_failed (status : Nat)
  | init_no_id
  | validated (status : Nat) (anomaly_score : ℚ)

/-- The three counters of bruteforce_handshake. -/
structure BruteforceCounts where
  success_count : Nat
  failed_count : Nat
  suspicious_count : Nat
deriving DecidableEq, Repr

/-- The per-attempt counter updates of bruteforce_handshake: a non-200 init
or an exception increments failed_count; a 200 init without an id updates
nothing; after a validate round, anomaly_score > 0.5 increments
suspicious_count, and then a clean 200 with score at most 0.5 increments
success_count while every other validate outcome increments failed_count. -/
def record_attempt (c : BruteforceCounts) (a : HandshakeAttempt) : BruteforceCounts :=
  match a with
  | .transport_error => { c with failed_count := c.failed_count + 1 }
  | .init_failed _ => { c with failed_count := c.failed_count + 1 }
  | .init_no_id => c
  | .validated status anomaly_score =>
    let c1 :=
      if anomaly_score > 1/2 then
        { c with suspicious_count := c.suspicious_count + 1 }
      else c
    if status = 200 ∧ anomaly_score ≤ 1/2 then
      { c1 with success_count := c1.success_count + 1 }
    else
      { c1 with failed_count := c1.failed_count + 1 }

/-- The counters after the attempt loop of bruteforce_handshake. -/
def bruteforce_counts (rs : List HandshakeAttempt) : BruteforceCounts :=
  rs.foldl record_attempt ⟨0, 0, 0⟩

/-- The final pass criterion `passed = failed_count > attempts * 0.3 or
suspicious_count > 0`. At attempts = 50 the float product 50 * 0.3 equals
exactly 15.0, so this rational comparison coincides with the float one. -/
def bruteforce_passed (attempts : Nat) (rs : List HandshakeAttempt) : Bool :=
  let c := bruteforce_counts rs
  decide ((c.failed_count : ℚ) > (attempts : ℚ) * (3/10)) ||
  decide (0 < c.suspicious_count)

/-! ### Process-level harness — attack_simulator.py main block and
src/run_full_security_tests.py -/

/-- Summary state at the end of attack_simulator.py run as a script. -/
structure AttackSummary where
  passed : Nat
  total : Nat
  exit_code : Int
deriving DecidableEq, Repr

/-- The main block of attack_simulator.py given the four scenario outcomes:
it builds the results list, counts passes, prints the passed/total summary
and then falls off the end of the script. There is no sys.exit call
anywhere in attack_simulator.py, so the interpreter exits with status 0
whatever the counts are. -/
def attack_simulator_main (tampered mitm replay bruteforce : Bool) : AttackSummary :=
  let results := [("MITM Tampered Ciphertext", tampered), ("MITM Wrong Key", mitm),
    ("Replay Attack", replay), ("Brute Force Handshake", bruteforce)]
  let passed := (results.filter (fun r => r.2)).length
  { passed := passed, total := results.length, exit_code := 0 }

/-- What one subprocess.run invocation of a test script can produce for
run_test: a completed process with its return code, a TimeoutExpired after
the 300 second ceiling, or another exception while launching it. -/
inductive ScriptResult where
  | completed (returncode : Int)
  | timed_out
  | launch_error

/-- run_test from run_full_security_tests.py: TimeoutExpired and launch
errors are caught inside run_test itself and converted to (False, -1); a
completed script passes iff its return code is 0. -/
def run_test (r : ScriptResult) : Bool × Int :=
  match r with
  | .completed returncode => (decide (returncode = 0), returncode)
  | .timed_out => (false, -1)
  | .launch_error => (false, -1)

/-- Observable trace of one harness run. -/
structure HarnessRun where
  executed : List String
  test_results : List (String × Bool)
  exit_code : Int
deriving DecidableEq, Repr

/-- main of run_full_security_tests.py on the path past the prerequisite
check and the interactive confirmation, as a function of what the three
spawned scripts do. The three run_test calls are unconditional straight-line
code (a timeout is absorbed inside run_test and becomes a False result), so
all three scripts are always invoked; main returns True iff every test
passed, and the script wrapper exits 0 on True and 1 on False. -/
def security_tests_main (r1 r2 r3 : ScriptResult) : HarnessRun :=
  let p1 := (run_test r1).1
  let p2 := (run_test r2).1
  let p3 := (run_test r3).1
  let results := [("TEST 1: Normal Secure Upload", p1),
    ("TEST 2-4: MITM and Attack Scenarios", p2),
    ("TEST 5-7: Corrupted File Detection", p3)]
  let passed_count := (results.filter (fun r => r.2)).length
  { executed := ["client/client.py", "attack_simulator.py", "upload_corrupted_file.py"],
    test_results := results,
    exit_code := if passed_count = results.length then 0 else 1 }

/-! ### Helper lemmas -/

theorem map_zero_eq_replicate (l : Features) :
    (l.map fun _ => (0 : ℚ)) = List.replicate l.length 0 := by
  induction l with
  | nil => rfl
  | cons a t ih => simp [ih, List.replicate]

/-- On a nonempty all-numeric feature dictionary the per-call scaler maps
every column to (x - x) / 1 = 0. -/
theorem fit_transform_single_row_zero (f : Features) (hne : f ≠ [])
    (hnum : f.all (fun kv => kv.2.isNum) = true) :
    fit_transform_single_row f = .ok (List.replicate f.length 0) := by
  cases f with
  | nil => exact absurd rfl hne
  | cons a t =>
    rw [← map_zero_eq_replicate]
    simp only [fit_transform_single_row, List.isEmpty_cons, hnum]
    simp [sub_self, zero_div]

/-- Under the model-store contract the extracted score is a probability or
a 0/1 label, hence lies in [0,1], and no exception is raised. -/
theorem model_score_wf_unit (m : Model) (hwf : ModelWF m) (row : List ℚ) :
    ∃ v, model_score m row = .ok v ∧ 0 ≤ v ∧ v ≤ 1 := by
  cases hm : m.has_predict_proba with
  | true =>
    obtain ⟨ps, hok, hlen, hmem⟩ := hwf.1 hm [row]
    obtain ⟨p0, rfl⟩ : ∃ p0, ps = [p0] := by
      cases ps with
      | nil => simp at hlen
      | cons p0 t =>
        cases t with
        | nil => exact ⟨p0, rfl⟩
        | cons b u => simp at hlen
    obtain ⟨hp0, hbound⟩ := hmem p0 (by simp)
    by_cases hlen1 : p0.length > 1
    · have hget : p0[1]? = some p0[1] := List.getElem?_eq_getElem hlen1
      refine ⟨p0[1], ?_, (hbound _ (List.getElem_mem hlen1)).1,
        (hbound _ (List.getElem_mem hlen1)).2⟩
      simp [model_score, hm, hok, hget, hlen1]
    · have hpos : 0 < p0.length := List.length_pos.mpr hp0
      have hget : p0[0]? = some p0[0] := List.getElem?_eq_getElem hpos
      refine ⟨p0[0], ?_, (hbound _ (List.getElem_mem hpos)).1,
        (hbound _ (List.getElem_mem hpos)).2⟩
      simp [model_score, hm, hok, hget, hlen1]
  | false =>
    obtain ⟨ys, hok, hlen, hmem⟩ := hwf.2 hm [row]
    obtain ⟨y, rfl⟩ : ∃ y, ys = [y] := by
      cases ys with
      | nil => simp at hlen
      | cons y t =>
        cases t with
        | nil => exact ⟨y, rfl⟩
        | cons b u => simp at hlen
    have hy := hmem y (by simp)
    refine ⟨y, by simp [model_score, hm, hok], ?_, ?_⟩
    · rcases hy with h | h <;> norm_num [h]
    · rcases hy with h | h <;> norm_num [h]

/-- The example model satisfies the model-store contract. -/
theorem example_model_wf : ModelWF example_model := by
  constructor
  · intro _ rows
    refine ⟨rows.map (fun _ => [1/4, 3/4]), rfl, by simp, ?_⟩
    intro p hp
    obtain ⟨a, -, rfl⟩ := List.mem_map.mp hp
    refine ⟨by simp, ?_⟩
    intro x hx
    simp at hx
    rcases hx with h | h <;> rw [h] <;> norm_num
  · intro h
    simp [example_model] at h

/-! ### Claim theorems -/

/-- C1: for every model and every two feature dictionaries over the same
set of keys with finite numeric values, predict_handshake returns the same
(anomaly_score, verdict) pair for both, and likewise predict_file: the
per-call StandardScaler is fit on the single-row frame built from the
request, so the normalized vector handed to the model is the all-zero
vector regardless of the feature values. -/
theorem predict_constant_on_same_keys (f1 f2 : Features) (m : Model)
    (hperm : (f1.map Prod.fst).Perm (f2.map Prod.fst))
    (h1 : f1.all (fun kv => kv.2.isNum) = true)
    (h2 : f2.all (fun kv => kv.2.isNum) = true) :
    predict_handshake f1 m = predict_handshake f2 m ∧
    predict_file f1 m = predict_file f2 m ∧
    (f1 ≠ [] → fit_transform_single_row f1 = .ok (List.replicate f1.length 0)) := by
  have hlen : f1.length = f2.length := by simpa using hperm.length_eq
  by_cases hnil : f1 = []
  · subst hnil
    have h2nil : f2 = [] := by
      have hmap : f2.map Prod.fst = [] := hperm.nil_eq.symm
      exact List.map_eq_nil_iff.mp hmap
    subst h2nil
    exact ⟨rfl, rfl, fun h => absurd rfl h⟩
  · have hnil2 : f2 ≠ [] := by
      intro h
      subst h
      exact hnil (List.length_eq_zero.mp (by simpa using hlen))
    have e1 := fit_transform_single_row_zero f1 hnil h1
    have e2 := fit_transform_single_row_zero f2 hnil2 h2
    refine ⟨?_, ?_, fun _ => e1⟩ <;>
      simp [predict_handshake, predict_file, anomaly_score_of, e1, e2, hlen]

/-- Witness for C1: two concrete feature dictionaries over the key set
containing a and b, with different values, give identical results. -/
theorem predict_constant_on_same_keys_witness :
    predict_handshake [("a", .num 3), ("b", .num 5)] example_model
      = predict_handshake [("b", .num 100), ("a", .num 7)] example_model ∧
    predict_file [("a", .num 3), ("b", .num 5)] example_model
      = predict_file [("b", .num 100), ("a", .num 7)] example_model :=
  have h := predict_constant_on_same_keys [("a", .num 3), ("b", .num 5)]
    [("b", .num 100), ("a", .num 7)] example_model (by decide) (by decide) (by decide)
  ⟨h.1, h.2.1⟩

/-- C2: the verdict returned by predict_handshake is "suspicious" iff the
returned anomaly score is strictly greater than 0.5 and "normal" otherwise;
analogously with 0.4 for predict_file. -/
theorem verdict_matches_threshold (f : Features) (m : Model) :
    ((predict_handshake f m).2 = "suspicious" ↔ (predict_handshake f m).1 > 1/2) ∧
    ((predict_handshake f m).2 = "normal" ↔ ¬(predict_handshake f m).1 > 1/2) ∧
    ((predict_file f m).2 = "suspicious" ↔ (predict_file f m).1 > 2/5) ∧
    ((predict_file f m).2 = "normal" ↔ ¬(predict_file f m).1 > 2/5) := by
  cases h : anomaly_score_of f m with
  | ok s =>
    simp only [predict_handshake, predict_file, h]
    refine ⟨?_, ?_, ?_, ?_⟩
    · by_cases hs : s > 1/2 <;> simp [hs]
    · by_cases hs : s > 1/2 <;> simp [hs]
    · by_cases hs : s > 2/5 <;> simp [hs]
    · by_cases hs : s > 2/5 <;> simp [hs]
  | error e =>
    simp only [predict_handshake, predict_file, h]
    norm_num
    decide

/-- Witness for C2: the threshold characterization at a concrete call. -/
theorem verdict_matches_threshold_witness :
    (predict_handshake [("f1", .num 3)] example_model).2 = "suspicious" ↔
      (predict_handshake [("f1", .num 3)] example_model).1 > 1/2 :=
  (verdict_matches_threshold [("f1", .num 3)] example_model).1

/-- C3: on every input on which an internal exception is raised during
prediction, predict_handshake and predict_file do not propagate the
exception but return exactly the pair (0.1, "normal"). -/
theorem fail_open_on_internal_error (f : Features) (m : Model)
    (h : ∃ e, anomaly_score_of f m = .error e) :
    predict_handshake f m = (1/10, "normal") ∧
    predict_file f m = (1/10, "normal") := by
  obtain ⟨e, he⟩ := h
  simp [predict_handshake, predict_file, he]

/-- Witness for C3: a malformed (non-numeric) feature raises inside the
scaler and both functions return (0.1, "normal"). -/
theorem fail_open_on_internal_error_witness :
    predict_handshake [("duration", .nonNumeric)] example_model = (1/10, "normal") ∧
    predict_file [("duration", .nonNumeric)] example_model = (1/10, "normal") :=
  fail_open_on_internal_error _ _ ⟨"non-numeric input", rfl⟩

/-- C9: for every feature dictionary conforming to the context schema (all
fields present and numeric) and every model honouring the model-store
contract, the anomaly scores returned by predict_handshake and predict_file
lie in the closed interval [0,1]. -/
theorem anomaly_score_in_unit_interval (f : Features) (m : Model)
    (hwf : ModelWF m) (hne : f ≠ [])
    (hnum : f.all (fun kv => kv.2.isNum) = true) :
    (0 ≤ (predict_handshake f m).1 ∧ (predict_handshake f m).1 ≤ 1) ∧
    (0 ≤ (predict_file f m).1 ∧ (predict_file f m).1 ≤ 1) := by
  have e1 := fit_transform_single_row_zero f hne hnum
  obtain ⟨v, hv, h0, h1v⟩ := model_score_wf_unit m hwf (List.replicate f.length 0)
  have hscore : anomaly_score_of f m = .ok v := by
    simp [anomaly_score_of, e1, hv]
  constructor <;> constructor <;>
    simp [predict_handshake, predict_file, hscore] <;> assumption

/-- Witness for C9 at a concrete schema-conforming dictionary and the
example model. -/
theorem anomaly_score_in_unit_interval_witness :
    (0 ≤ (predict_handshake [("duration", .num 3)] example_model).1 ∧
      (predict_handshake [("duration", .num 3)] example_model).1 ≤ 1) ∧
    (0 ≤ (predict_file [("duration", .num 3)] example_model).1 ∧
      (predict_file [("duration", .num 3)] example_model).1 ≤ 1) :=
  anomaly_score_in_unit_interval [("duration", .num 3)] example_model
    example_model_wf (by decide) (by decide)

/-- C6: the tamper scenario uploads the legitimate byte string with the
bytes at positions 10 to 19 flipped (XOR with 0xFF), and records a pass
exactly when the response status is in the reject class [400, 403, 500] —
never on an accept (2xx) status, so a pass means the tampered upload was
not accepted. -/
theorem tampered_upload_spec :
    tampered_data =
      legitimate_data.mapIdx (fun i b => if 10 ≤ i ∧ i < 20 then b ^^^ 255 else b) ∧
    (∀ status : Nat,
      tampered_upload_demo true (.response status) = true ↔
        (status = 400 ∨ status = 403 ∨ status = 500)) ∧
    (∀ status : Nat, is_accept_status status = true →
      tampered_upload_demo true (.response status) = false) := by
  refine ⟨by decide, ?_, ?_⟩
  · intro status
    simp [tampered_upload_demo]
  · intro status hacc
    simp only [is_accept_status, decide_eq_true_eq] at hacc
    simp [tampered_upload_demo]
    omega

/-- Witness for C6: a 400 response passes the scenario, a 200 response
fails it. -/
theorem tampered_upload_spec_witness :
    tampered_upload_demo true (.response 400) = true ∧
    tampered_upload_demo true (.response 200) = false :=
  ⟨(tampered_upload_spec.2.1 400).mpr (Or.inl rfl),
    tampered_upload_spec.2.2 200 (by decide)⟩

/-- C10: the forged-key scenario submits (base64-encoded) a syntactically
invalid 36-byte ASCII public key to init; a non-200 init response passes
the scenario immediately; otherwise, with a handshake id present, it
passes iff verified is false or the validate response status is not 200 —
exactly when the complete init+validate flow did not yield a verified
session. -/
theorem forged_key_spec :
    fake_key_bytes.length = 36 ∧
    fake_key_bytes.all (fun b => b < 128) = true ∧
    (∀ e : ForgedKeyEnv, e.auth_ok = true → e.request_error = false →
      e.init_status ≠ 200 → mitm_wrong_key e = true) ∧
    (∀ e : ForgedKeyEnv, e.auth_ok = true → e.request_error = false →
      e.init_status = 200 → e.handshake_id.isSome = true →
      (mitm_wrong_key e = true ↔
        (e.verified = false ∨ e.validate_status ≠ 200))) := by
  refine ⟨by decide, by decide, ?_, ?_⟩
  · intro e hauth herr hinit
    simp [mitm_wrong_key, hauth, herr, hinit]
  · intro e hauth herr hinit hid
    obtain ⟨id0, hid0⟩ := Option.isSome_iff_exists.mp hid
    simp [mitm_wrong_key, hauth, herr, hinit, hid0]

/-- Witness for C10: a rejected init passes; an accepted init followed by a
verified 200 validate fails; an unverified validate passes. -/
theorem forged_key_spec_witness :
    mitm_wrong_key ⟨true, false, 400, none, 0, false⟩ = true ∧
    mitm_wrong_key ⟨true, false, 200, some "h1", 200, true⟩ = false ∧
    mitm_wrong_key ⟨true, false, 200, some "h1", 200, false⟩ = true := by
  refine ⟨forged_key_spec.2.2.1 _ rfl rfl (by decide), ?_, ?_⟩
  · have h := forged_key_spec.2.2.2 ⟨true, false, 200, some "h1", 200, true⟩
      rfl rfl rfl rfl
    simp only [show (⟨true, false, 200, some "h1", 200, true⟩ :
      ForgedKeyEnv).verified = true from rfl] at h
    cases hm : mitm_wrong_key ⟨true, false, 200, some "h1", 200, true⟩
    · rfl
    · exact absurd (h.mp hm) (by simp)
  · exact (forged_key_spec.2.2.2 ⟨true, false, 200, some "h1", 200, false⟩
      rfl rfl rfl rfl).mpr (Or.inl rfl)

/-- C8: the replay scenario resubmits the byte-identical initial payload 3
times in quick succession; a transport error fails the scenario, and when
every request completes it passes — in particular whenever some response
explicitly signals replay or nonce reuse in its error message, and also
when the repeated uploads merely receive some mitigating response. -/
theorem replay_spec :
    replay_uploads = List.replicate 3 test_content ∧
    (∀ m0 m1 m2 m3 : String,
      replay_attack_demo true (.response m0)
        [.response m1, .response m2, .response m3] = true) ∧
    (∀ (s m : String) (rest : List ReplayOutcome), signals_replay m = true →
      replay_attack_demo true (.response s) (.response m :: rest) = true) ∧
    (∀ (s : String) (rest : List ReplayOutcome),
      replay_attack_demo true (.response s) (.transport_error :: rest) = false) ∧
    (∀ rs : List ReplayOutcome,
      replay_attack_demo true .transport_error rs = false) := by
  refine ⟨rfl, ?_, ?_, ?_, ?_⟩
  · intro m0 m1 m2 m3
    simp only [replay_attack_demo, replay_loop]
    split_ifs <;> simp_all
  · intro s m rest h
    simp [replay_attack_demo, replay_loop, h]
  · intro s rest
    simp [replay_attack_demo, replay_loop]
  · intro rs
    simp [replay_attack_demo]

/-- Witness for C8: an explicit replay-detection message passes even when a
later request would fail, and a first-replay transport error fails. -/
theorem replay_spec_witness :
    replay_attack_demo true (.response "")
      [.response "Replay attack detected", .transport_error] = true ∧
    replay_attack_demo true (.response "") [.transport_error] = false :=
  ⟨replay_spec.2.2.1 "" "Replay attack detected" [.transport_error] (by decide),
    replay_spec.2.2.2.1 "" []⟩

/-- C7: with 50 attempts, the brute-force scenario passes iff the failure
fraction failed_count/50 exceeds 0.3 or at least one attempt was flagged
suspicious; an attempt is counted suspicious when its anomaly score
exceeds 0.5, successful when its validate response is a 200 with score at
most 0.5, and transport errors and rejected inits count as failures. -/
theorem bruteforce_spec (rs : List HandshakeAttempt) (hlen : rs.length = 50) :
    (bruteforce_passed 50 rs = true ↔
      ((bruteforce_counts rs).failed_count : ℚ) / (rs.length : ℚ) > 3/10 ∨
        1 ≤ (bruteforce_counts rs).suspicious_count) ∧
    (∀ c status score, (record_attempt c (.validated status score)).suspicious_count
        = c.suspicious_count + (if score > 1/2 then 1 else 0)) ∧
    (∀ c status score, (record_attempt c (.validated status score)).success_count
        = c.success_count + (if status = 200 ∧ score ≤ 1/2 then 1 else 0)) ∧
    (∀ c, (record_attempt c .transport_error).failed_count = c.failed_count + 1) ∧
    (∀ c status, (record_attempt c (.init_failed status)).failed_count
        = c.failed_count + 1) ∧
    (∀ c status score, (record_attempt c (.validated status score)).failed_count
        = c.failed_count + (if status = 200 ∧ score ≤ 1/2 then 0 else 1)) := by
  refine ⟨?_, ?_, ?_, fun c => rfl, fun c status => rfl, ?_⟩
  · rw [hlen]
    simp only [bruteforce_passed, Bool.or_eq_true, decide_eq_true_eq]
    constructor
    · rintro (h | h)
      · left
        rw [gt_iff_lt, lt_div_iff₀ (by norm_num : (0:ℚ) < (50:ℕ))]
        push_cast at h ⊢
        linarith
      · right; omega
    · rintro (h | h)
      · left
        rw [gt_iff_lt, lt_div_iff₀ (by norm_num : (0:ℚ) < (50:ℕ))] at h
        push_cast at h ⊢
        linarith
      · right; omega
  · intro c status score
    simp only [record_attempt]
    split_ifs <;> rfl
  · intro c status score
    simp only [record_attempt]
    split_ifs <;> rfl
  · intro c status score
    simp only [record_attempt]
    split_ifs <;> rfl

/-- Witness for C7: fifty transport errors make every attempt a failure,
50/50 exceeds 0.3, and the scenario passes. -/
theorem bruteforce_spec_witness :
    bruteforce_passed 50 (List.replicate 50 .transport_error) = true :=
  have h := bruteforce_spec (List.replicate 50 .transport_error) (by simp)
  h.1.mpr (Or.inl (by
    have hc : bruteforce_counts (List.replicate 50 .transport_error)
      = ⟨0, 50, 0⟩ := rfl
    rw [hc]
    simp
    norm_num))

/-- C4: the driver main block does compute the passed/total summary, but
attack_simulator.py contains no sys.exit call, so the interpreter exit
status is 0 even when no scenario passed — contrary to the claim that the
count is used as the process exit signal — and run_test consequently
records the wholly-failed attack run as passed. -/
theorem attack_driver_exit_code_zero :
    (attack_simulator_main false false false false).passed = 0 ∧
    (attack_simulator_main false false false false).total = 4 ∧
    (attack_simulator_main false false false false).exit_code = 0 ∧
    run_test (.completed (attack_simulator_main false false false false).exit_code)
      = (true, 0) :=
  ⟨rfl, rfl, rfl, rfl⟩

/-- C5 counterexample: when the first test script exceeds the 5-minute
ceiling, the harness still executes all three scripts and records three
results — the run is not aborted — although it does exit non-zero. -/
theorem harness_timeout_no_abort_cex :
    (security_tests_main .timed_out (.completed 0) (.completed 0)).executed.length = 3 ∧
    (security_tests_main .timed_out (.completed 0) (.completed 0)).test_results.length = 3 ∧
    (security_tests_main .timed_out (.completed 0) (.completed 0)).exit_code = 1 :=
  ⟨rfl, rfl, rfl⟩

/-- C5 amended: if a test-script invocation exceeds the 5-minute ceiling,
run_test converts the TimeoutExpired into a failed result (False, -1), the
harness still invokes all three scripts, and the final exit status is 1
because not every test passed. -/
theorem harness_timeout_behavior (r1 r2 r3 : ScriptResult)
    (h : r1 = .timed_out ∨ r2 = .timed_out ∨ r3 = .timed_out) :
    run_test .timed_out = (false, -1) ∧
    (security_tests_main r1 r2 r3).executed
      = ["client/client.py", "attack_simulator.py", "upload_corrupted_file.py"] ∧
    (security_tests_main r1 r2 r3).exit_code = 1 := by
  have h1 : (run_test ScriptResult.timed_out).1 = false := rfl
  refine ⟨rfl, rfl, ?_⟩
  rcases h with h | h | h <;> subst h
  · cases h2 : (run_test r2).1 <;> cases h3 : (run_test r3).1 <;>
      simp [security_tests_main, h1, h2, h3]
  · cases h2 : (run_test r1).1 <;> cases h3 : (run_test r3).1 <;>
      simp [security_tests_main, h1, h2, h3]
  · cases h2 : (run_test r1).1 <;> cases h3 : (run_test r2).1 <;>
      simp [security_tests_main, h1, h2, h3]

/-- Witness for the amended C5: a timeout of the first script yields exit
status 1. -/
theorem harness_timeout_behavior_witness :
    (security_tests_main .timed_out (.completed 0) (.completed 0)).exit_code = 1 :=
  (harness_timeout_behavior .timed_out (.completed 0) (.completed 0) (Or.inl rfl)).2.2

end SecureTransfer
